import Mathlib

/-!
Verification of the identity-resolution and config-patch core of
`scripts/configure_ns.py` (with `scripts/template_substitute.py` as an
external collaborator).

The Python data and functions are shallowly embedded:
- a JSON device object is a `DeviceRecord` whose fields are `Option`s,
  since any key may be absent from the dict;
- Python string truthiness (`if s:`) is `truthy` on `Option String`
  (`None` and the empty string are falsy);
- a `KeyError` raised by the `name` lookup is an `Except.error`;
- `str.replace` is `replaceAll` on `List Char` (leftmost, non-overlapping,
  all occurrences), and `re.search` for the two credential patterns is a
  literal left-to-right scanner;
- `main` is a pure function of an `Env` describing the outcomes of the
  I/O steps (config file, probes, HTTP fetch, config write), returning the
  exit code, the final config text, the number of fetch calls and the
  device-diagnostic lines.
-/

/-- A device object from the registry JSON. Every key may be absent. -/
structure DeviceRecord where
  name : Option String
  hostname : Option String
  addresses : Option (List String)
  online : Option Bool
deriving DecidableEq, Repr

/-- The parsed JSON body as the script observes it: its Python truthiness
and the value of the `devices` key when present. -/
structure DevicesData where
  isTruthy : Bool
  devices : Option (List DeviceRecord)
deriving DecidableEq, Repr

/-- A Python exception escaping `detect_current_device`. -/
inductive PyError where
  | keyError (key : String)
deriving DecidableEq, Repr

/-- Python truthiness of an optional string: `None` and `""` are falsy. -/
def truthy : Option String → Bool
  | none => false
  | some s => !s.data.isEmpty

/-- The substring before the first dot (the whole string when there is no
dot): line 118 splits the device hostname on the dot and takes the head. -/
def beforeDot (s : String) : String :=
  String.mk (s.data.takeWhile (fun c => c ≠ '.'))

/-- Line 107: a record matches by IP when it has an `addresses` key whose
list contains the overlay IP. -/
def ipMatches (tailscale_ip : String) (device : DeviceRecord) : Bool :=
  match device.addresses with
  | none => false
  | some addrs => addrs.contains tailscale_ip

/-- Lines 115-119: the hostname match condition, with the empty-string
`get` defaults for absent keys. -/
def hostMatches (hostname : String) (device : DeviceRecord) : Bool :=
  let device_hostname := device.hostname.getD ""
  device_hostname == hostname ||
    beforeDot device_hostname == hostname ||
    device.name.getD "" == hostname

/-- Indexing the device dict with the `name` key (lines 109 and 121):
raises `KeyError` when the key is absent. -/
def getNameKey (device : DeviceRecord) : Except PyError String :=
  match device.name with
  | some n => Except.ok n
  | none => Except.error (PyError.keyError "name")

/-- Lines 101-123 of `detect_current_device`: the two first-match-wins
scans over the `devices` list. `Except.ok none` is Python `return None`. -/
def detectFromDevices (devices : List DeviceRecord)
    (tailscale_ip hostname : Option String) : Except PyError (Option String) :=
  match (if truthy tailscale_ip then
           devices.find? (ipMatches (tailscale_ip.getD ""))
         else none) with
  | some device => (getNameKey device).map some
  | none =>
    if truthy hostname then
      match devices.find? (hostMatches (hostname.getD "")) with
      | some device => (getNameKey device).map some
      | none => Except.ok none
    else Except.ok none

/-- The full `detect_current_device` including lines 98-99: `None` or
falsy data, or a missing `devices` key, short-circuit to `None`. -/
def detect_current_device (devices_data : Option DevicesData)
    (tailscale_ip hostname : Option String) : Except PyError (Option String) :=
  match devices_data with
  | none => Except.ok none
  | some d =>
    if !d.isTruthy then Except.ok none
    else
      match d.devices with
      | none => Except.ok none
      | some devices => detectFromDevices devices tailscale_ip hostname

/-- The commented placeholder line replaced by `update_config_with_device`. -/
def placeholder : String := "# device_name: \"your-device-name\""

/-- The replacement written in place of the placeholder: the active
assignment line carrying the device name, quoted (the f-string of
line 135). -/
def resolvedLine (device_name : String) : String :=
  "device_name: \"" ++ device_name ++ "\""

/-- Python substring containment (`pat in s`). -/
def containsSub (pat : List Char) : List Char → Bool
  | [] => pat.isEmpty
  | c :: cs => pat.isPrefixOf (c :: cs) || containsSub pat cs

/-- Fuel-indexed worker for `str.replace`: replace every leftmost,
non-overlapping occurrence of `pat` by `rep`, scanning left to right.
The fuel only makes the recursion structural; it never runs out when it
starts at the length of the string. -/
def replaceAllF (pat rep : List Char) : Nat → List Char → List Char
  | _, [] => []
  | 0, s => s
  | n + 1, c :: cs =>
    if pat ≠ [] ∧ pat.isPrefixOf (c :: cs) then
      rep ++ replaceAllF pat rep n (cs.drop (pat.length - 1))
    else
      c :: replaceAllF pat rep n cs

/-- Python string replace for strings as character lists. -/
def replaceAll (pat rep s : List Char) : List Char :=
  replaceAllF pat rep s.length s

/-- Lines 133-136: the pure substitution performed by
`update_config_with_device` on the config text. -/
def patch (content device_name : String) : String :=
  String.mk (replaceAll placeholder.data (resolvedLine device_name).data content.data)

/-- Splitting a text at newline characters, as Python string split does:
always at least one piece, and the empty text yields one empty line. -/
def splitLines : List Char → List (List Char)
  | [] => [[]]
  | c :: cs =>
    if c = '\n' then [] :: splitLines cs
    else (c :: (splitLines cs).headD []) :: (splitLines cs).tail

/-- Outcome of `json.loads` on the response body. -/
inductive BodyParse where
  | malformed (msg : String)
  | parsed (value : DevicesData)
deriving DecidableEq, Repr

/-- The outcome of the single `urllib.request.urlopen` interaction:
`urlopen` raises `HTTPError` on non-2xx statuses, `URLError` on network
failures, and otherwise yields a response whose body is then parsed. -/
inductive FetchOutcome where
  | raiseHTTPError (code : Nat) (reason : String)
  | raiseURLError (reason : String)
  | response (status : Nat) (body : BodyParse)
deriving DecidableEq, Repr

/-- Lines 67-93 of `fetch_tailscale_devices`: every exception and every
non-200 status is logged and collapsed into `None`; a successfully parsed
body is returned as-is, whatever its shape. -/
def fetch_tailscale_devices : FetchOutcome → Option DevicesData
  | FetchOutcome.raiseHTTPError _ _ => none
  | FetchOutcome.raiseURLError _ => none
  | FetchOutcome.response status body =>
    if status ≠ 200 then none
    else
      match body with
      | BodyParse.malformed _ => none
      | BodyParse.parsed v => some v

/-- The Python regex class of whitespace characters, for the ASCII range,
as used by the credential regexes. -/
def isSpaceChar (c : Char) : Bool :=
  c = ' ' || c = '\t' || c = '\n' || c = '\r' || c = '\x0b' || c = '\x0c'

/-- The quote character class of the credential regexes: a double or a
single quote. -/
def isQuoteChar (c : Char) : Bool :=
  c = '"' || c = '\''

/-- Try the credential pattern (the literal key, a greedy whitespace run,
a quote, a greedy nonempty run of non-quote characters, a quote) anchored
at the start of `s`, returning the capture. The greedy runs need no
backtracking: shrinking either run leaves a next character that the
following character class rejects. -/
def matchValueAt (key s : List Char) : Option (List Char) :=
  if key.isPrefixOf s then
    match (s.drop key.length).dropWhile isSpaceChar with
    | [] => none
    | q :: rest =>
      if isQuoteChar q then
        match rest.takeWhile (fun c => !isQuoteChar c),
              rest.dropWhile (fun c => !isQuoteChar c) with
        | [], _ => none
        | _ :: _, [] => none
        | v, q2 :: _ => if isQuoteChar q2 then some v else none
      else none
  else none

/-- Python regex search: try the pattern at each position, left to
right. -/
def searchValue (key : List Char) : List Char → Option (List Char)
  | [] => none
  | c :: cs =>
    match matchValueAt key (c :: cs) with
    | some v => some v
    | none => searchValue key cs

/-- Lines 148-169 of `extract_config_values`: both regexes must match,
else the pair `(None, None)` — modelled as `none`. -/
def extract_config_values (content : String) : Option (String × String) :=
  match searchValue "api_key:".data content.data,
        searchValue "tailnet:".data content.data with
  | some a, some t => some (String.mk a, String.mk t)
  | _, _ => none

/-- The outcomes of the I/O steps of one run of `main`, fixed up front:
whether the config file exists, its text, the two identity probes, the
HTTP interaction, and whether the config read-modify-write succeeds. -/
structure Env where
  configExists : Bool
  configContent : String
  tailscaleIp : Option String
  hostname : Option String
  fetchOutcome : FetchOutcome
  writeOk : Bool
deriving Repr

/-- Observable result of one run of `main`: process exit code, the config
text on disk afterwards, how many times the registry was fetched, and the
per-device diagnostic triples (name, hostname, online/offline) printed on
the no-match path. -/
structure MainResult where
  exitCode : Nat
  finalConfig : String
  fetchCalls : Nat
  deviceDiagnostics : List (String × String × String)
deriving Repr

/-- Line 197: `if not devices_data` — Python truthiness of the fetched
value (`None` and falsy values such as `{}` fail the guard). -/
def pyTruthyData : Option DevicesData → Bool
  | none => false
  | some d => d.isTruthy

/-- Lines 207-209: one diagnostic triple per device, with the `get`
defaults of the source. -/
def diagLine (device : DeviceRecord) : String × String × String :=
  (device.name.getD "unknown", device.hostname.getD "unknown",
   if device.online.getD false then "online" else "offline")

/-- Line 206: the `devices` list of the fetched data (default empty),
mapped to diagnostics. -/
def enumerateDevices (devices_data : Option DevicesData) :
    List (String × String × String) :=
  (match devices_data with
   | some d => d.devices.getD []
   | none => []).map diagLine

/-- Lines 126-145 of `update_config_with_device`: on I/O success the file
holds the patched text and the function returns `True`; on any exception
it returns `False` and the file is unchanged. -/
def update_config_with_device (writeOk : Bool) (content device_name : String) :
    Bool × String :=
  if writeOk then (true, patch content device_name) else (false, content)

/-- Lines 172-216 of `main` as a pure function of the step outcomes.
An uncaught `KeyError` from `detect_current_device` terminates the
process with exit code 1 (CPython exits with code 1 on an uncaught
exception). -/
def mainRun (env : Env) : MainResult :=
  if !env.configExists then
    { exitCode := 1, finalConfig := env.configContent, fetchCalls := 0,
      deviceDiagnostics := [] }
  else
    match extract_config_values env.configContent with
    | none =>
      { exitCode := 1, finalConfig := env.configContent, fetchCalls := 0,
        deviceDiagnostics := [] }
    | some _ =>
      if !(truthy env.tailscaleIp || truthy env.hostname) then
        { exitCode := 1, finalConfig := env.configContent, fetchCalls := 0,
          deviceDiagnostics := [] }
      else
        let devices_data := fetch_tailscale_devices env.fetchOutcome
        if !pyTruthyData devices_data then
          { exitCode := 1, finalConfig := env.configContent, fetchCalls := 1,
            deviceDiagnostics := [] }
        else
          match detect_current_device devices_data env.tailscaleIp env.hostname with
          | Except.error _ =>
            { exitCode := 1, finalConfig := env.configContent, fetchCalls := 1,
              deviceDiagnostics := [] }
          | Except.ok device_name =>
            if !truthy device_name then
              { exitCode := 1, finalConfig := env.configContent, fetchCalls := 1,
                deviceDiagnostics := enumerateDevices devices_data }
            else
              match update_config_with_device env.writeOk env.configContent
                      (device_name.getD "") with
              | (true, newContent) =>
                { exitCode := 0, finalConfig := newContent, fetchCalls := 1,
                  deviceDiagnostics := [] }
              | (false, oldContent) =>
                { exitCode := 1, finalConfig := oldContent, fetchCalls := 1,
                  deviceDiagnostics := [] }

/-- Forget the `online` field of a record (the matcher never reads it). -/
def eraseOnline (d : DeviceRecord) : DeviceRecord :=
  { d with online := none }

theorem replaceAllF_congr (pat rep : List Char) :
    ∀ n m s, s.length ≤ n → s.length ≤ m →
      replaceAllF pat rep n s = replaceAllF pat rep m s := by
  intro n
  induction n with
  | zero =>
    intro m s hn _
    have hs : s = [] := List.eq_nil_of_length_eq_zero (Nat.le_zero.mp hn)
    subst hs
    cases m <;> rfl
  | succ n ih =>
    intro m s hn hm
    cases s with
    | nil => cases m <;> rfl
    | cons c cs =>
      cases m with
      | zero => simp at hm
      | succ m =>
        simp only [List.length_cons, Nat.succ_le_succ_iff] at hn hm
        simp only [replaceAllF]
        by_cases h : pat ≠ [] ∧ pat.isPrefixOf (c :: cs) = true
        · rw [if_pos h, if_pos h]
          have hd : (cs.drop (pat.length - 1)).length ≤ cs.length := by
            simp [List.length_drop]
          exact congrArg (rep ++ ·) (ih m _ (le_trans hd hn) (le_trans hd hm))
        · rw [if_neg h, if_neg h]
          exact congrArg (c :: ·) (ih m cs hn hm)

theorem replaceAll_cons_pos (pat rep : List Char) (c : Char) (cs : List Char)
    (h1 : pat ≠ []) (h2 : pat.isPrefixOf (c :: cs) = true) :
    replaceAll pat rep (c :: cs) =
      rep ++ replaceAll pat rep (cs.drop (pat.length - 1)) := by
  show replaceAllF pat rep (cs.length + 1) (c :: cs) = _
  simp only [replaceAllF]
  rw [if_pos ⟨h1, h2⟩]
  refine congrArg (rep ++ ·) (replaceAllF_congr pat rep _ _ _ ?_ le_rfl)
  simp [List.length_drop]

theorem replaceAll_cons_neg (pat rep : List Char) (c : Char) (cs : List Char)
    (h : ¬(pat ≠ [] ∧ pat.isPrefixOf (c :: cs) = true)) :
    replaceAll pat rep (c :: cs) = c :: replaceAll pat rep cs := by
  show replaceAllF pat rep (cs.length + 1) (c :: cs) = _
  simp only [replaceAllF]
  rw [if_neg h]
  rfl

theorem replaceAll_of_not_contains (pat rep : List Char) :
    ∀ s, containsSub pat s = false → replaceAll pat rep s = s := by
  intro s
  induction s with
  | nil => intro _; rfl
  | cons c cs ih =>
    intro h
    simp only [containsSub, Bool.or_eq_false_iff] at h
    rw [replaceAll_cons_neg pat rep c cs (fun hc => by rw [h.1] at hc; exact absurd hc.2 (by simp))]
    rw [ih h.2]

theorem containsSub_self (pat : List Char) : containsSub pat pat = true := by
  cases pat with
  | nil => rfl
  | cons c cs =>
    simp [containsSub, List.isPrefixOf_iff_prefix]

theorem replaceAll_self (pat rep : List Char) (h : pat ≠ []) :
    replaceAll pat rep pat = rep := by
  cases pat with
  | nil => exact absurd rfl h
  | cons c cs =>
    rw [replaceAll_cons_pos _ _ _ _ h ( List.isPrefixOf_iff_prefix.mpr (List.prefix_refl _))]
    simp [replaceAll, replaceAllF]

theorem splitLines_ne_nil (s : List Char) : splitLines s ≠ [] := by
  cases s with
  | nil => simp [splitLines]
  | cons c cs =>
    unfold splitLines
    split <;> simp

theorem cons_headD_tail (l : List (List Char)) (h : l ≠ []) :
    l.headD [] :: l.tail = l := by
  cases l with
  | nil => exact absurd rfl h
  | cons a as => rfl

theorem splitLines_headD_prefix_self : ∀ s : List Char, (splitLines s).headD [] <+: s := by
  intro s
  induction s with
  | nil => simp [splitLines]
  | cons c cs ih =>
    by_cases h : c = '\n'
    · simp [splitLines, h]
    · simp only [splitLines, if_neg h, List.headD_cons]
      exact List.cons_prefix_cons.mpr ⟨rfl, ih⟩

theorem prefix_headD_splitLines :
    ∀ (pat s : List Char), (∀ c ∈ pat, c ≠ '\n') → pat <+: s →
      pat <+: (splitLines s).headD [] := by
  intro pat
  induction pat with
  | nil => intro s _ _; exact List.nil_prefix
  | cons p ps ih =>
    intro s hn hp
    cases s with
    | nil => simp at hp
    | cons c cs =>
      rw [List.cons_prefix_cons] at hp
      obtain ⟨rfl, hps⟩ := hp
      have hpn : p ≠ '\n' := hn p (by simp)
      simp only [splitLines, if_neg hpn, List.headD_cons]
      exact List.cons_prefix_cons.mpr
        ⟨rfl, ih cs (fun x hx => hn x (by simp [hx])) hps⟩

theorem splitLines_drop :
    ∀ (s : List Char) (k : Nat), k ≤ ((splitLines s).headD []).length →
      splitLines (s.drop k) =
        ((splitLines s).headD []).drop k :: (splitLines s).tail := by
  intro s
  induction s with
  | nil => intro k _; simp [splitLines]
  | cons c cs ih =>
    intro k hk
    cases k with
    | zero =>
      simp only [List.drop_zero]
      exact (cons_headD_tail _ (splitLines_ne_nil (c :: cs))).symm
    | succ k =>
      by_cases h : c = '\n'
      · simp [splitLines, h] at hk
      · simp only [splitLines, if_neg h, List.headD_cons, List.length_cons,
          Nat.succ_le_succ_iff, List.drop_succ_cons, List.tail_cons] at hk ⊢
        exact ih k hk

theorem splitLines_append :
    ∀ (a t : List Char), (∀ c ∈ a, c ≠ '\n') →
      splitLines (a ++ t) =
        (a ++ (splitLines t).headD []) :: (splitLines t).tail := by
  intro a
  induction a with
  | nil =>
    intro t _
    simp only [List.nil_append]
    exact (cons_headD_tail _ (splitLines_ne_nil t)).symm
  | cons c a' ih =>
    intro t hn
    have hc : c ≠ '\n' := hn c (by simp)
    rw [List.cons_append]
    simp only [splitLines, if_neg hc]
    rw [ih t (fun x hx => hn x (by simp [hx]))]
    simp

theorem splitLines_replaceAll (pat rep : List Char) (hp : pat ≠ [])
    (hpn : ∀ c ∈ pat, c ≠ '\n') (hrn : ∀ c ∈ rep, c ≠ '\n') :
    ∀ (n : Nat) (s : List Char), s.length ≤ n →
      splitLines (replaceAll pat rep s) =
        (splitLines s).map (replaceAll pat rep) := by
  intro n
  induction n with
  | zero =>
    intro s hs
    have h0 : s = [] := List.eq_nil_of_length_eq_zero (Nat.le_zero.mp hs)
    subst h0
    simp [splitLines, replaceAll, replaceAllF]
  | succ n ih =>
    intro s hs
    cases s with
    | nil => simp [splitLines, replaceAll, replaceAllF]
    | cons c cs =>
      simp only [List.length_cons, Nat.succ_le_succ_iff] at hs
      rcases hsc : splitLines cs with _ | ⟨h, tl⟩
      · exact absurd hsc (splitLines_ne_nil cs)
      by_cases hm : pat.isPrefixOf (c :: cs) = true
      · obtain ⟨p, ps, rfl⟩ : ∃ p ps, pat = p :: ps := by
          cases pat with
          | nil => exact absurd rfl hp
          | cons p ps => exact ⟨p, ps, rfl⟩
        have hpc : p = c := (List.cons_prefix_cons.mp ( List.isPrefixOf_iff_prefix.mp hm)).1
        have hcn : c ≠ '\n' := hpc ▸ hpn p (by simp)
        have hfl : (p :: ps) <+: c :: h := by
          have := prefix_headD_splitLines (p :: ps) (c :: cs) hpn
            ( List.isPrefixOf_iff_prefix.mp hm)
          rwa [show (splitLines (c :: cs)).headD [] = c :: h by
            simp [splitLines, if_neg hcn, hsc]] at this
        have hk : (p :: ps).length - 1 ≤ h.length := by
          have := hfl.length_le
          simp only [List.length_cons] at this ⊢
          omega
        rw [replaceAll_cons_pos _ _ _ _ hp hm]
        rw [splitLines_append rep _ hrn]
        have hd : (cs.drop ((p :: ps).length - 1)).length ≤ n := by
          have : (cs.drop ((p :: ps).length - 1)).length ≤ cs.length := by
            simp [List.length_drop]
          omega
        rw [ih _ hd]
        have hdrop : splitLines (cs.drop ((p :: ps).length - 1)) =
            h.drop ((p :: ps).length - 1) :: tl := by
          have := splitLines_drop cs ((p :: ps).length - 1) (by rw [hsc]; exact hk)
          rwa [hsc] at this
        rw [hdrop]
        have hra : replaceAll (p :: ps) rep (c :: h) =
            rep ++ replaceAll (p :: ps) rep (h.drop ((p :: ps).length - 1)) :=
          replaceAll_cons_pos _ _ _ _ hp ( List.isPrefixOf_iff_prefix.mpr hfl)
        simp only [splitLines, if_neg hcn, hsc, List.headD_cons, List.tail_cons,
          List.map_cons, hra]
      · rw [replaceAll_cons_neg pat rep c cs (fun hc => hm hc.2)]
        by_cases hcn : c = '\n'
        · subst hcn
          simp only [splitLines, if_pos rfl, ih cs hs, List.map_cons]
          congr 1
        · simp only [splitLines, if_neg hcn, ih cs hs, hsc, List.map_cons,
            List.headD_cons, List.tail_cons]
          have hch : replaceAll pat rep (c :: h) = c :: replaceAll pat rep h := by
            refine replaceAll_cons_neg pat rep c h (fun hc => hm ?_)
            have hpre : pat <+: c :: h := List.isPrefixOf_iff_prefix.mp hc.2
            have hhcs : h <+: cs := by
              have := splitLines_headD_prefix_self cs
              rwa [hsc] at this
            exact List.isPrefixOf_iff_prefix.mpr
              (hpre.trans (List.cons_prefix_cons.mpr ⟨rfl, hhcs⟩))
          rw [hch]

theorem ne_of_not_containsSub (pat l : List Char)
    (h : containsSub pat l = false) : l ≠ pat := by
  intro he
  subst he
  simp [containsSub_self] at h

theorem resolvedLine_data (name : String) :
    (resolvedLine name).data = "device_name: \"".data ++ name.data ++ "\"".data := by
  simp [resolvedLine, String.data_append]

theorem resolvedLine_newline_free (name : String)
    (hn : ∀ c ∈ name.data, c ≠ '\n') :
    ∀ c ∈ (resolvedLine name).data, c ≠ '\n' := by
  rw [resolvedLine_data]
  intro c hc
  simp only [List.append_assoc, List.mem_append] at hc
  rcases hc with hc | hc | hc
  · exact (by decide : ∀ c ∈ "device_name: \"".data, c ≠ '\n') c hc
  · exact hn c hc
  · exact (by decide : ∀ c ∈ "\"".data, c ≠ '\n') c hc

theorem resolvedLine_ne_placeholder (name : String) :
    (resolvedLine name).data ≠ placeholder.data := by
  intro h
  have h1 : (resolvedLine name).data.headD ' ' = 'd' := by
    rw [resolvedLine_data]
    rfl
  rw [h] at h1
  exact absurd h1 (by decide)

theorem splitLines_patch (text name : String)
    (hn : ∀ c ∈ name.data, c ≠ '\n') :
    splitLines (patch text name).data =
      (splitLines text.data).map
        (replaceAll placeholder.data (resolvedLine name).data) := by
  show splitLines (replaceAll placeholder.data (resolvedLine name).data text.data) = _
  exact splitLines_replaceAll placeholder.data (resolvedLine name).data
    (by decide) (by decide) (resolvedLine_newline_free name hn)
    text.data.length text.data le_rfl

/-- C4: for every config text that does not contain the placeholder line,
and for every device name, `patch` returns the input unchanged; amended:
the derived idempotence holds whenever the output of the first patch no longer
contains the placeholder (the unrestricted form is refuted by
`patch_idempotent_counterexample`, where the replacement recreates the
placeholder). -/
theorem patch_unchanged_and_idempotent (text name : String) :
    (containsSub placeholder.data text.data = false → patch text name = text) ∧
    (containsSub placeholder.data (patch text name).data = false →
      patch (patch text name) name = patch text name) := by
  constructor
  · intro h
    show String.mk (replaceAll placeholder.data (resolvedLine name).data text.data) = text
    rw [replaceAll_of_not_contains _ _ _ h]
  · intro h
    show String.mk
      (replaceAll placeholder.data (resolvedLine name).data (patch text name).data) =
        patch text name
    rw [replaceAll_of_not_contains _ _ _ h]

/-- C4 witness: a placeholder-free text is returned unchanged. -/
theorem patch_unchanged_and_idempotent_witness :
    containsSub placeholder.data ("api_key: \"k\"" : String).data = false ∧
    patch "api_key: \"k\"" "laptop-1" = "api_key: \"k\"" :=
  ⟨by decide, (patch_unchanged_and_idempotent "api_key: \"k\"" "laptop-1").1 (by decide)⟩

/-- C4 counterexample: patching `# # device_name: "your-device-name"` with
the device name `your-device-name` yields the placeholder line itself, so a
second patch changes the result of the first: `patch` is not idempotent on
every text and name. -/
theorem patch_idempotent_counterexample :
    patch (patch "# # device_name: \"your-device-name\"" "your-device-name")
        "your-device-name" ≠
      patch "# # device_name: \"your-device-name\"" "your-device-name" := by
  decide

/-- C5 (amended): for every config text and every newline-free device name,
`patch` preserves the number of lines and leaves every line that does not
contain the placeholder substring unchanged at its position; only lines
containing the placeholder differ. -/
theorem patch_line_frame (text name : String)
    (hn : ∀ c ∈ name.data, c ≠ '\n') :
    (splitLines (patch text name).data).length = (splitLines text.data).length ∧
    ∀ (i : Nat) (h1 : i < (splitLines text.data).length)
      (h2 : i < (splitLines (patch text name).data).length),
      containsSub placeholder.data ((splitLines text.data).get ⟨i, h1⟩) = false →
      (splitLines (patch text name).data).get ⟨i, h2⟩ =
        (splitLines text.data).get ⟨i, h1⟩ := by
  have hcomm := splitLines_patch text name hn
  constructor
  · rw [hcomm, List.length_map]
  · intro i h1 h2 hclean
    simp only [List.get_eq_getElem]
    rw [List.getElem_of_eq hcomm h2, List.getElem_map]
    exact replaceAll_of_not_contains _ _ _ hclean

/-- C5 witness: a three-line config; the clean first line survives in
place. -/
theorem patch_line_frame_witness :
    (∀ c ∈ ("laptop-1" : String).data, c ≠ '\n') ∧
    (splitLines (patch "a: 1\n# device_name: \"your-device-name\"\nb: 2"
        "laptop-1").data).length =
      (splitLines ("a: 1\n# device_name: \"your-device-name\"\nb: 2" :
        String).data).length ∧
    (splitLines (patch "a: 1\n# device_name: \"your-device-name\"\nb: 2"
        "laptop-1").data).get ⟨0, by decide⟩ =
      (splitLines ("a: 1\n# device_name: \"your-device-name\"\nb: 2" :
        String).data).get ⟨0, by decide⟩ :=
  ⟨by decide,
   (patch_line_frame "a: 1\n# device_name: \"your-device-name\"\nb: 2"
      "laptop-1" (by decide)).1,
   (patch_line_frame "a: 1\n# device_name: \"your-device-name\"\nb: 2"
      "laptop-1" (by decide)).2 0 (by decide) (by decide) (by decide)⟩

/-- C5 counterexample: the text `xx# device_name: "your-device-name"` has a
single line, which is not the placeholder line, yet `patch` alters it: a
line other than the (absent) placeholder line differs between input and
output. -/
theorem patch_frame_counterexample :
    splitLines ("xx# device_name: \"your-device-name\"" : String).data =
      [("xx# device_name: \"your-device-name\"" : String).data] ∧
    ("xx# device_name: \"your-device-name\"" : String).data ≠ placeholder.data ∧
    splitLines (patch "xx# device_name: \"your-device-name\"" "laptop-1").data =
      [("xxdevice_name: \"laptop-1\"" : String).data] ∧
    ("xxdevice_name: \"laptop-1\"" : String).data ≠
      ("xx# device_name: \"your-device-name\"" : String).data := by
  refine ⟨by decide, by decide, by decide, by decide⟩

/-- C6 (amended): if the lines of the config text are `A ++ [placeholder] ++ B`
where no line of `A` or `B` contains the placeholder substring or equals the
resolved line, and the device name is newline-free, then after a patch the
lines are `A ++ [resolved] ++ B`: exactly zero placeholder lines and exactly
one resolved assignment line remain. -/
theorem patch_placeholder_invariant (text name : String)
    (A B : List (List Char))
    (hsplit : splitLines text.data = A ++ placeholder.data :: B)
    (hA : ∀ l ∈ A, containsSub placeholder.data l = false)
    (hB : ∀ l ∈ B, containsSub placeholder.data l = false)
    (hA2 : ∀ l ∈ A, l ≠ (resolvedLine name).data)
    (hB2 : ∀ l ∈ B, l ≠ (resolvedLine name).data)
    (hn : ∀ c ∈ name.data, c ≠ '\n') :
    splitLines (patch text name).data = A ++ (resolvedLine name).data :: B ∧
    List.countP (fun l => l == placeholder.data)
      (splitLines (patch text name).data) = 0 ∧
    List.countP (fun l => l == (resolvedLine name).data)
      (splitLines (patch text name).data) = 1 := by
  have hmain : splitLines (patch text name).data =
      A ++ (resolvedLine name).data :: B := by
    rw [splitLines_patch text name hn, hsplit, List.map_append, List.map_cons]
    rw [replaceAll_self _ _ (by decide)]
    congr 1
    · calc A.map (replaceAll placeholder.data (resolvedLine name).data)
          = A.map id := List.map_congr_left
            (fun l hl => replaceAll_of_not_contains _ _ l (hA l hl))
        _ = A := List.map_id A
    · congr 1
      calc B.map (replaceAll placeholder.data (resolvedLine name).data)
          = B.map id := List.map_congr_left
            (fun l hl => replaceAll_of_not_contains _ _ l (hB l hl))
        _ = B := List.map_id B
  refine ⟨hmain, ?_, ?_⟩
  · rw [hmain, List.countP_append]
    rw [List.countP_cons_of_neg _ _
      (by simp [resolvedLine_ne_placeholder name])]
    rw [List.countP_eq_zero.mpr (fun l hl => by
      simp [ne_of_not_containsSub placeholder.data l (hA l hl)])]
    rw [List.countP_eq_zero.mpr (fun l hl => by
      simp [ne_of_not_containsSub placeholder.data l (hB l hl)])]
  · rw [hmain, List.countP_append]
    rw [List.countP_cons_of_pos _ _ (by simp)]
    rw [List.countP_eq_zero.mpr (fun l hl => by simp [hA2 l hl])]
    rw [List.countP_eq_zero.mpr (fun l hl => by simp [hB2 l hl])]

/-- C6 witness: a three-line config with one well-formed placeholder line,
patched with `laptop-1`. -/
theorem patch_placeholder_invariant_witness :
    splitLines ("a: 1\n# device_name: \"your-device-name\"\nb: 2" : String).data =
      [("a: 1" : String).data] ++ placeholder.data :: [("b: 2" : String).data] ∧
    (splitLines (patch "a: 1\n# device_name: \"your-device-name\"\nb: 2"
        "laptop-1").data =
      [("a: 1" : String).data] ++
        (resolvedLine "laptop-1").data :: [("b: 2" : String).data] ∧
    List.countP (fun l => l == placeholder.data)
      (splitLines (patch "a: 1\n# device_name: \"your-device-name\"\nb: 2"
        "laptop-1").data) = 0 ∧
    List.countP (fun l => l == (resolvedLine "laptop-1").data)
      (splitLines (patch "a: 1\n# device_name: \"your-device-name\"\nb: 2"
        "laptop-1").data) = 1) :=
  ⟨by decide,
   patch_placeholder_invariant "a: 1\n# device_name: \"your-device-name\"\nb: 2"
     "laptop-1" [("a: 1" : String).data] [("b: 2" : String).data]
     (by decide) (by decide) (by decide) (by decide) (by decide) (by decide)⟩

/-- C6 counterexample: the single-line text `# # device_name: "your-device-name"`
contains zero placeholder lines of the recognized form (so it satisfies the
claimed precondition), its patch with the name `your-device-name` substitutes,
yet the result contains one placeholder line and zero resolved lines. -/
theorem patch_invariant_counterexample :
    List.countP (fun l => l == placeholder.data)
      (splitLines ("# # device_name: \"your-device-name\"" : String).data) = 0 ∧
    patch "# # device_name: \"your-device-name\"" "your-device-name" ≠
      "# # device_name: \"your-device-name\"" ∧
    List.countP (fun l => l == placeholder.data)
      (splitLines (patch "# # device_name: \"your-device-name\""
        "your-device-name").data) = 1 ∧
    List.countP (fun l => l == (resolvedLine "your-device-name").data)
      (splitLines (patch "# # device_name: \"your-device-name\""
        "your-device-name").data) = 0 := by
  refine ⟨by decide, by decide, by decide, by decide⟩

/-- C1: when `overlay_ip` is present (truthy) and the `addresses` of some
record contain it, `match` returns the name of the first such record in registry
order, regardless of the hostname value. The first such record is
expressed by `find?`, which is the scan of lines 106-109. -/
theorem detect_ip_precedence (devices : List DeviceRecord)
    (tailscale_ip hostname : Option String) (d : DeviceRecord) (n : String)
    (hip : truthy tailscale_ip = true)
    (hfind : devices.find? (ipMatches (tailscale_ip.getD "")) = some d)
    (hname : d.name = some n) :
    detectFromDevices devices tailscale_ip hostname = Except.ok (some n) := by
  simp [detectFromDevices, hip, hfind, getNameKey, hname, Except.map]

/-- C1 witness: both records hold the IP; the hostname points at the
second record, but the first wins by IP precedence. -/
theorem detect_ip_precedence_witness :
    truthy (some "100.64.1.5") = true ∧
    detectFromDevices
      [⟨some "first", some "x-host", some ["100.64.1.5"], some true⟩,
       ⟨some "second", some "second", some ["100.64.1.5"], some false⟩]
      (some "100.64.1.5") (some "second") = Except.ok (some "first") :=
  ⟨by decide,
   detect_ip_precedence
     [⟨some "first", some "x-host", some ["100.64.1.5"], some true⟩,
      ⟨some "second", some "second", some ["100.64.1.5"], some false⟩]
     (some "100.64.1.5") (some "second")
     ⟨some "first", some "x-host", some ["100.64.1.5"], some true⟩ "first"
     (by decide) (by decide) (by decide)⟩

/-- C2: when the IP stage yields nothing (absent or unmatched overlay IP)
and `hostname` is present, `match` returns the name of the first record
whose hostname, hostname-before-first-dot, or name equals the local
hostname, and `NoMatch` when no record qualifies. -/
theorem detect_hostname_fallback (devices : List DeviceRecord)
    (tailscale_ip hostname : Option String)
    (hip : truthy tailscale_ip = false ∨
      devices.find? (ipMatches (tailscale_ip.getD "")) = none)
    (hhn : truthy hostname = true) :
    (∀ d n, devices.find? (hostMatches (hostname.getD "")) = some d →
      d.name = some n →
      detectFromDevices devices tailscale_ip hostname = Except.ok (some n)) ∧
    (devices.find? (hostMatches (hostname.getD "")) = none →
      detectFromDevices devices tailscale_ip hostname = Except.ok none) := by
  have hstage : (if truthy tailscale_ip then
      devices.find? (ipMatches (tailscale_ip.getD "")) else none) = none := by
    rcases hip with h | h
    · rw [h]
      simp
    · split <;> simp [h]
  constructor
  · intro d n hfind hname
    simp [detectFromDevices, hstage, hhn, hfind, getNameKey, hname, Except.map]
  · intro hfind
    simp [detectFromDevices, hstage, hhn, hfind]

/-- C2 witness: no overlay IP; hostname `build-host` matches
`build-host.example.com` by the before-first-dot rule. -/
theorem detect_hostname_fallback_witness :
    truthy (some "build-host") = true ∧
    detectFromDevices
      [⟨some "ci-1", some "build-host.example.com", some ["100.64.2.7"], some true⟩]
      none (some "build-host") = Except.ok (some "ci-1") :=
  ⟨by decide,
   (detect_hostname_fallback
      [⟨some "ci-1", some "build-host.example.com", some ["100.64.2.7"], some true⟩]
      none (some "build-host") (Or.inl (by decide)) (by decide)).1
     ⟨some "ci-1", some "build-host.example.com", some ["100.64.2.7"], some true⟩
     "ci-1" (by decide) (by decide)⟩

/-- C3 counterexample: a registry whose only record lacks the `name` key
but matches by hostname makes `detect_current_device` raise `KeyError`
(line 121 indexes the device dict with `name`), so `match` is not total on registries
with missing fields. -/
theorem detect_total_counterexample :
    detectFromDevices [⟨none, some "host-a", none, none⟩] none (some "host-a") =
      Except.error (PyError.keyError "name") := rfl

/-- C3 (amended): `match` is a pure function of its three inputs, and on
every registry whose records all carry a `name` field it returns a
`MatchResult` without raising, for every combination of present/absent
`overlay_ip` and `hostname` (records may still lack `hostname` or
`addresses`). -/
theorem detect_total_on_named (devices : List DeviceRecord)
    (tailscale_ip hostname : Option String)
    (h : ∀ d ∈ devices, d.name.isSome = true) :
    ∃ r, detectFromDevices devices tailscale_ip hostname = Except.ok r := by
  cases hf : (if truthy tailscale_ip then
      devices.find? (ipMatches (tailscale_ip.getD "")) else none) with
  | some d =>
    have hd : d ∈ devices := by
      by_cases ht : truthy tailscale_ip = true
      · rw [if_pos ht] at hf
        exact List.mem_of_find?_eq_some hf
      · rw [if_neg ht] at hf
        exact absurd hf (by simp)
    obtain ⟨n, hn⟩ := Option.isSome_iff_exists.mp (h d hd)
    exact ⟨some n, by simp [detectFromDevices, hf, getNameKey, hn, Except.map]⟩
  | none =>
    by_cases hh : truthy hostname = true
    · cases hf2 : devices.find? (hostMatches (hostname.getD "")) with
      | some d =>
        obtain ⟨n, hn⟩ := Option.isSome_iff_exists.mp
          (h d (List.mem_of_find?_eq_some hf2))
        exact ⟨some n,
          by simp [detectFromDevices, hf, hh, hf2, getNameKey, hn, Except.map]⟩
      | none => exact ⟨none, by simp [detectFromDevices, hf, hh, hf2]⟩
    · exact ⟨none, by simp [detectFromDevices, hf, hh]⟩

/-- C3 witness: a fully-named registry with both probes present. -/
theorem detect_total_on_named_witness :
    (∀ d ∈ ([⟨some "a", some "h", some ["100.64.0.1"], some true⟩] :
        List DeviceRecord), d.name.isSome = true) ∧
    ∃ r, detectFromDevices
      [⟨some "a", some "h", some ["100.64.0.1"], some true⟩]
      (some "100.64.0.1") (some "h") = Except.ok r :=
  ⟨by decide, detect_total_on_named _ _ _ (by decide)⟩

theorem detectFromDevices_eraseOnline (devices : List DeviceRecord)
    (tailscale_ip hostname : Option String) :
    detectFromDevices (devices.map eraseOnline) tailscale_ip hostname =
      detectFromDevices devices tailscale_ip hostname := by
  unfold detectFromDevices
  rw [List.find?_map, List.find?_map]
  have h1 : (ipMatches (tailscale_ip.getD "") ∘ eraseOnline) =
      ipMatches (tailscale_ip.getD "") := funext fun d => rfl
  have h2 : (hostMatches (hostname.getD "") ∘ eraseOnline) =
      hostMatches (hostname.getD "") := funext fun d => rfl
  rw [h1, h2]
  have hif : (if truthy tailscale_ip then
        Option.map eraseOnline (devices.find? (ipMatches (tailscale_ip.getD "")))
      else none) =
      Option.map eraseOnline (if truthy tailscale_ip then
        devices.find? (ipMatches (tailscale_ip.getD "")) else none) := by
    cases truthy tailscale_ip <;> simp
  rw [hif]
  cases (if truthy tailscale_ip then
      devices.find? (ipMatches (tailscale_ip.getD "")) else none) with
  | some d => rfl
  | none =>
    cases truthy hostname with
    | false => rfl
    | true =>
      cases devices.find? (hostMatches (hostname.getD "")) with
      | some d => rfl
      | none => rfl

/-- C10: the result of `match` is independent of the `online` field of
every record: two registries identical except for `online` values yield the same
result for every overlay IP and hostname. -/
theorem detect_online_independent (R1 R2 : List DeviceRecord)
    (tailscale_ip hostname : Option String)
    (h : R1.map eraseOnline = R2.map eraseOnline) :
    detectFromDevices R1 tailscale_ip hostname =
      detectFromDevices R2 tailscale_ip hostname := by
  rw [← detectFromDevices_eraseOnline R1 tailscale_ip hostname, h,
    detectFromDevices_eraseOnline R2 tailscale_ip hostname]

/-- C10 witness: flipping the `online` flag of a record leaves the match
result unchanged. -/
theorem detect_online_independent_witness :
    ([⟨some "a", some "h", some ["100.64.0.1"], some true⟩] :
        List DeviceRecord).map eraseOnline =
      ([⟨some "a", some "h", some ["100.64.0.1"], some false⟩] :
        List DeviceRecord).map eraseOnline ∧
    detectFromDevices [⟨some "a", some "h", some ["100.64.0.1"], some true⟩]
        (some "100.64.0.1") none =
      detectFromDevices [⟨some "a", some "h", some ["100.64.0.1"], some false⟩]
        (some "100.64.0.1") none :=
  ⟨by decide, detect_online_independent _ _ _ _ (by decide)⟩

/-- C7 counterexample: a 200 response whose body is valid JSON but not a
registry document with a `devices` array (a truthy dict without the key)
is returned as data, not as a typed error: the client refutes the claim
that every malformed body yields an error. -/
theorem fetch_typed_error_counterexample :
    fetch_tailscale_devices (FetchOutcome.response 200
        (BodyParse.parsed ⟨true, none⟩)) = some ⟨true, none⟩ ∧
    some (⟨true, none⟩ : DevicesData) ≠ (none : Option DevicesData) :=
  ⟨rfl, by decide⟩

/-- C7 (amended): on a non-2xx response, a network failure, or a body that
is not valid JSON, the client returns the error value `None`; `main` never
fetches more than once; whenever the client returns `None` the run exits
with code 1 and the config text is unchanged; and a valid-JSON body
lacking a `devices` array, although returned to the caller as data rather
than as a client error (see `fetch_typed_error_counterexample`), still
ends the run with exit code 1 (a falsy body fails the line-197 guard, a
truthy one reaches the no-match path). -/
theorem fetch_error_no_retry :
    (∀ code reason,
      fetch_tailscale_devices (FetchOutcome.raiseHTTPError code reason) = none) ∧
    (∀ reason,
      fetch_tailscale_devices (FetchOutcome.raiseURLError reason) = none) ∧
    (∀ status body, status ≠ 200 →
      fetch_tailscale_devices (FetchOutcome.response status body) = none) ∧
    (∀ msg,
      fetch_tailscale_devices
        (FetchOutcome.response 200 (BodyParse.malformed msg)) = none) ∧
    (∀ env : Env, (mainRun env).fetchCalls ≤ 1) ∧
    (∀ env : Env, fetch_tailscale_devices env.fetchOutcome = none →
      (mainRun env).exitCode = 1 ∧ (mainRun env).finalConfig = env.configContent) ∧
    (∀ (env : Env) (dd : DevicesData),
      fetch_tailscale_devices env.fetchOutcome = some dd → dd.devices = none →
      (mainRun env).exitCode = 1) := by
  refine ⟨fun code reason => rfl, fun reason => rfl,
    fun status body h => by simp [fetch_tailscale_devices, h],
    fun msg => rfl, ?_, ?_, ?_⟩
  · intro env
    simp only [mainRun]
    repeat' split
    all_goals simp
  · intro env hf
    by_cases hc : env.configExists = true
    · cases he : extract_config_values env.configContent with
      | none => simp [mainRun, hc, he]
      | some p =>
        by_cases hi : (truthy env.tailscaleIp || truthy env.hostname) = true
        · simp [mainRun, hc, he, hi, hf, pyTruthyData]
        · simp only [Bool.not_eq_true] at hi
          simp [mainRun, hc, he, hi]
    · simp only [Bool.not_eq_true] at hc
      simp [mainRun, hc]
  · intro env dd hf hdev
    by_cases hc : env.configExists = true
    · cases he : extract_config_values env.configContent with
      | none => simp [mainRun, hc, he]
      | some p =>
        by_cases hi : (truthy env.tailscaleIp || truthy env.hostname) = true
        · by_cases hdt : dd.isTruthy = true
          · have hdet : detect_current_device (some dd) env.tailscaleIp
                env.hostname = Except.ok none := by
              simp [detect_current_device, hdt, hdev]
            simp [mainRun, hc, he, hi, hf, pyTruthyData, hdt, hdet,
              show truthy none = false from rfl]
          · simp only [Bool.not_eq_true] at hdt
            simp [mainRun, hc, he, hi, hf, pyTruthyData, hdt]
        · simp only [Bool.not_eq_true] at hi
          simp [mainRun, hc, he, hi]
    · simp only [Bool.not_eq_true] at hc
      simp [mainRun, hc]

/-- C7 witness: a 404 response is a client error. -/
theorem fetch_error_no_retry_witness :
    (404 ≠ 200) ∧
    fetch_tailscale_devices
      (FetchOutcome.response 404 (BodyParse.malformed "not found")) = none :=
  ⟨by decide, fetch_error_no_retry.2.2.1 404 (BodyParse.malformed "not found")
    (by decide)⟩

/-- C8: a run that reaches the fetch and gets a client error (e.g. HTTP
401) exits with code 1 with the config text exactly as before and no
diagnostics; and exit code 0 occurs only when a device was resolved
(truthy name), the write succeeded, and the final config is the patched
config (patching an already-patched text returns it unchanged). -/
theorem main_fetch_failure_exit :
    (∀ env : Env, env.configExists = true →
      (extract_config_values env.configContent).isSome = true →
      (truthy env.tailscaleIp || truthy env.hostname) = true →
      fetch_tailscale_devices env.fetchOutcome = none →
      mainRun env = { exitCode := 1, finalConfig := env.configContent,
                      fetchCalls := 1, deviceDiagnostics := [] }) ∧
    (∀ env : Env, (mainRun env).exitCode = 0 →
      ∃ n, detect_current_device (fetch_tailscale_devices env.fetchOutcome)
          env.tailscaleIp env.hostname = Except.ok (some n) ∧
        truthy (some n) = true ∧ env.writeOk = true ∧
        (mainRun env).finalConfig = patch env.configContent n) := by
  constructor
  · intro env hc he hi hf
    obtain ⟨p, hp⟩ := Option.isSome_iff_exists.mp he
    simp [mainRun, hc, hp, hi, hf, pyTruthyData]
  · intro env h0
    by_cases hc : env.configExists = true
    · cases he : extract_config_values env.configContent with
      | none => simp [mainRun, hc, he] at h0
      | some p =>
        by_cases hi : (truthy env.tailscaleIp || truthy env.hostname) = true
        · cases hf : fetch_tailscale_devices env.fetchOutcome with
          | none => simp [mainRun, hc, he, hi, hf, pyTruthyData] at h0
          | some dd =>
            by_cases hdt : dd.isTruthy = true
            · cases hdet : detect_current_device (some dd) env.tailscaleIp
                  env.hostname with
              | error e =>
                simp [mainRun, hc, he, hi, hf, pyTruthyData, hdt, hdet] at h0
              | ok device_name =>
                by_cases hdn : truthy device_name = true
                · by_cases hw : env.writeOk = true
                  · cases device_name with
                    | none => simp [truthy] at hdn
                    | some n =>
                      refine ⟨n, rfl, hdn, hw, ?_⟩
                      simp [mainRun, hc, he, hi, hf, pyTruthyData, hdt, hdet,
                        hdn, update_config_with_device, hw]
                  · simp only [Bool.not_eq_true] at hw
                    simp [mainRun, hc, he, hi, hf, pyTruthyData, hdt, hdet,
                      hdn, update_config_with_device, hw] at h0
                · simp only [Bool.not_eq_true] at hdn
                  simp [mainRun, hc, he, hi, hf, pyTruthyData, hdt, hdet,
                    hdn] at h0
            · simp only [Bool.not_eq_true] at hdt
              simp [mainRun, hc, he, hi, hf, pyTruthyData, hdt] at h0
        · simp only [Bool.not_eq_true] at hi
          simp [mainRun, hc, he, hi] at h0
    · simp only [Bool.not_eq_true] at hc
      simp [mainRun, hc] at h0

/-- C8 witness: a run whose fetch raises HTTP 401 exits 1 and leaves the
config text untouched. -/
theorem main_fetch_failure_exit_witness :
    fetch_tailscale_devices (FetchOutcome.raiseHTTPError 401 "Unauthorized") =
      none ∧
    mainRun
      { configExists := true
      , configContent := "api_key: \"k\"\ntailnet: \"t\"\n# device_name: \"your-device-name\""
      , tailscaleIp := some "100.64.1.5"
      , hostname := some "h"
      , fetchOutcome := FetchOutcome.raiseHTTPError 401 "Unauthorized"
      , writeOk := true } =
      { exitCode := 1
      , finalConfig := "api_key: \"k\"\ntailnet: \"t\"\n# device_name: \"your-device-name\""
      , fetchCalls := 1
      , deviceDiagnostics := [] } :=
  ⟨by decide,
   main_fetch_failure_exit.1
     { configExists := true
     , configContent := "api_key: \"k\"\ntailnet: \"t\"\n# device_name: \"your-device-name\""
     , tailscaleIp := some "100.64.1.5"
     , hostname := some "h"
     , fetchOutcome := FetchOutcome.raiseHTTPError 401 "Unauthorized"
     , writeOk := true }
     (by decide) (by decide) (by decide) (by decide)⟩

/-- C9: a run whose fetch succeeds (truthy data) but whose match returns
`NoMatch` exits 1 and emits one diagnostic triple (name, hostname,
online/offline) per device of the fetched registry; and diagnostics are
emitted only on a failure at the match step (fetch succeeded, match result
not truthy). -/
theorem main_no_match_diagnostics :
    (∀ (env : Env) (dd : DevicesData), env.configExists = true →
      (extract_config_values env.configContent).isSome = true →
      (truthy env.tailscaleIp || truthy env.hostname) = true →
      fetch_tailscale_devices env.fetchOutcome = some dd →
      dd.isTruthy = true →
      detect_current_device (some dd) env.tailscaleIp env.hostname =
        Except.ok none →
      (mainRun env).exitCode = 1 ∧
      (mainRun env).deviceDiagnostics = (dd.devices.getD []).map diagLine) ∧
    (∀ env : Env, (mainRun env).deviceDiagnostics ≠ [] →
      (mainRun env).exitCode = 1 ∧
      ∃ (dd : DevicesData) (r : Option String),
        fetch_tailscale_devices env.fetchOutcome = some dd ∧
        dd.isTruthy = true ∧
        detect_current_device (some dd) env.tailscaleIp env.hostname =
          Except.ok r ∧
        truthy r = false) := by
  constructor
  · intro env dd hc he hi hf hdt hdet
    obtain ⟨p, hp⟩ := Option.isSome_iff_exists.mp he
    simp [mainRun, hc, hp, hi, hf, pyTruthyData, hdt, hdet,
      enumerateDevices, show truthy none = false from rfl]
  · intro env hdiag
    by_cases hc : env.configExists = true
    · cases he : extract_config_values env.configContent with
      | none => simp [mainRun, hc, he] at hdiag
      | some p =>
        by_cases hi : (truthy env.tailscaleIp || truthy env.hostname) = true
        · cases hf : fetch_tailscale_devices env.fetchOutcome with
          | none => simp [mainRun, hc, he, hi, hf, pyTruthyData] at hdiag
          | some dd =>
            by_cases hdt : dd.isTruthy = true
            · cases hdet : detect_current_device (some dd) env.tailscaleIp
                  env.hostname with
              | error e =>
                simp [mainRun, hc, he, hi, hf, pyTruthyData, hdt, hdet] at hdiag
              | ok device_name =>
                by_cases hdn : truthy device_name = true
                · by_cases hw : env.writeOk = true
                  · simp [mainRun, hc, he, hi, hf, pyTruthyData, hdt, hdet,
                      hdn, update_config_with_device, hw] at hdiag
                  · simp only [Bool.not_eq_true] at hw
                    simp [mainRun, hc, he, hi, hf, pyTruthyData, hdt, hdet,
                      hdn, update_config_with_device, hw] at hdiag
                · simp only [Bool.not_eq_true] at hdn
                  constructor
                  · simp [mainRun, hc, he, hi, hf, pyTruthyData, hdt, hdet, hdn]
                  · exact ⟨dd, device_name, rfl, hdt, hdet, hdn⟩
            · simp only [Bool.not_eq_true] at hdt
              simp [mainRun, hc, he, hi, hf, pyTruthyData, hdt] at hdiag
        · simp only [Bool.not_eq_true] at hi
          simp [mainRun, hc, he, hi] at hdiag
    · simp only [Bool.not_eq_true] at hc
      simp [mainRun, hc] at hdiag

/-- C9 witness: a registry whose single device matches neither signal; the
run exits 1 and lists that device with its online status. -/
theorem main_no_match_diagnostics_witness :
    detect_current_device
      (some ⟨true, some [⟨some "ci-1", some "other-host", some ["100.64.1.5"],
        some true⟩]⟩) (some "100.64.9.9") (some "nomatch") = Except.ok none ∧
    (mainRun
      { configExists := true
      , configContent := "api_key: \"k\"\ntailnet: \"t\"\n# device_name: \"your-device-name\""
      , tailscaleIp := some "100.64.9.9"
      , hostname := some "nomatch"
      , fetchOutcome := FetchOutcome.response 200 (BodyParse.parsed
          ⟨true, some [⟨some "ci-1", some "other-host", some ["100.64.1.5"],
            some true⟩]⟩)
      , writeOk := true }).exitCode = 1 ∧
    (mainRun
      { configExists := true
      , configContent := "api_key: \"k\"\ntailnet: \"t\"\n# device_name: \"your-device-name\""
      , tailscaleIp := some "100.64.9.9"
      , hostname := some "nomatch"
      , fetchOutcome := FetchOutcome.response 200 (BodyParse.parsed
          ⟨true, some [⟨some "ci-1", some "other-host", some ["100.64.1.5"],
            some true⟩]⟩)
      , writeOk := true }).deviceDiagnostics =
      (((⟨true, some [⟨some "ci-1", some "other-host", some ["100.64.1.5"],
          some true⟩]⟩ : DevicesData)).devices.getD []).map diagLine :=
  ⟨rfl,
   (main_no_match_diagnostics.1
     { configExists := true
     , configContent := "api_key: \"k\"\ntailnet: \"t\"\n# device_name: \"your-device-name\""
     , tailscaleIp := some "100.64.9.9"
     , hostname := some "nomatch"
     , fetchOutcome := FetchOutcome.response 200 (BodyParse.parsed
         ⟨true, some [⟨some "ci-1", some "other-host", some ["100.64.1.5"],
           some true⟩]⟩)
     , writeOk := true }
     ⟨true, some [⟨some "ci-1", some "other-host", some ["100.64.1.5"],
       some true⟩]⟩
     (by decide) (by decide) (by decide) (by decide) (by decide) rfl).1,
   (main_no_match_diagnostics.1
     { configExists := true
     , configContent := "api_key: \"k\"\ntailnet: \"t\"\n# device_name: \"your-device-name\""
     , tailscaleIp := some "100.64.9.9"
     , hostname := some "nomatch"
     , fetchOutcome := FetchOutcome.response 200 (BodyParse.parsed
         ⟨true, some [⟨some "ci-1", some "other-host", some ["100.64.1.5"],
           some true⟩]⟩)
     , writeOk := true }
     ⟨true, some [⟨some "ci-1", some "other-host", some ["100.64.1.5"],
       some true⟩]⟩
     (by decide) (by decide) (by decide) (by decide) (by decide) rfl).2⟩
